import Mathlib

/-!
Verification development for the temperature-monitor repository
(`temperature_monitor.py` and `temperature_monitor_headless.py`).

The Python sources are shallowly embedded: pure fragments become Lean
functions; the poll loop becomes a function over a list of per-iteration
inputs (frame result, key press, interrupt flag); the cooldown thread
becomes an explicit list of scheduled reset times; files (config, log)
become explicit values threaded through the functions.

Numeric temperatures are modelled as rationals; order comparisons on the
rationals agree with the Python float comparisons the code performs.
-/

namespace TempMon

/-! ## Extraction of numeric tokens

Embedding of `re.findall(r'-?\d+\.?\d*', text)` followed by
`float(numbers[0])`, shared verbatim by both variants
(`temperature_monitor.py` lines 76-85, headless lines 152-161).

`matchNum cs` is the regex engine's attempt to match `-?\d+\.?\d*` at the
start of `cs`: optional minus sign, one or more digits (greedy), optional
dot, zero or more digits (greedy).  The regex admits no other successful
shape at a given start position (if `-` is consumed but no digit follows,
backtracking to the empty sign still leaves `\d+` facing the `-`, so the
attempt fails), hence the greedy deterministic reading is exact.
`findNumbersAux` is `findall`: scan left to right, at each position try a
match; on success emit it and resume after it, otherwise advance one
character.  `\d` is taken as the ASCII digits (`Char.isDigit`), the only
digit characters the configured OCR whitelist
(`tessedit_char_whitelist=0123456789.-°CF`) can produce.
-/

/-- Match `\d+\.?\d*` at the start of `cs`: the token and the remainder. -/
def matchBody (cs : List Char) : Option (List Char × List Char) :=
  let ds := cs.takeWhile Char.isDigit
  let rest := cs.dropWhile Char.isDigit
  if ds = [] then none
  else
    match rest with
    | c :: cs3 =>
      if c = '.' then
        some (ds ++ '.' :: cs3.takeWhile Char.isDigit, cs3.dropWhile Char.isDigit)
      else
        some (ds, c :: cs3)
    | [] => some (ds, [])

/-- Match `-?\d+\.?\d*` at the start of `cs`. -/
def matchNum (cs : List Char) : Option (List Char × List Char) :=
  match cs with
  | [] => none
  | c :: rest =>
    if c = '-' then
      match matchBody rest with
      | some (tok, r) => some ('-' :: tok, r)
      | none => none
    else
      matchBody (c :: rest)

/-- The successive non-overlapping matches of `-?\d+\.?\d*`, as found by
`re.findall` scanning left to right.  The recursion is bounded by a fuel
argument for structural recursion; each step strictly shrinks the input
(`matchNum_rest_length`), so fuel equal to the input length never runs
out (`findNumbersFuel_fuel_irrelevant`). -/
def findNumbersFuel : Nat → List Char → List (List Char)
  | 0, _ => []
  | _ + 1, [] => []
  | fuel + 1, c :: cs0 =>
    match matchNum (c :: cs0) with
    | some (tok, rest) => tok :: findNumbersFuel fuel rest
    | none => findNumbersFuel fuel cs0

def findNumbersAux (cs : List Char) : List (List Char) :=
  findNumbersFuel cs.length cs

/-- Embedding of `re.findall(r'-?\d+\.?\d*', text)`. -/
def findNumbers (text : String) : List String :=
  (findNumbersAux text.data).map (fun cs => String.mk cs)

/-! ## Parsing a numeric token

Modelled from Python's built-in `float` restricted to the character
material the regex tokens consist of (optional sign, decimal digits, an
optional decimal point): the parse succeeds, yielding the denoted
rational, iff the text is a well-formed decimal literal (at least one
digit, at most one dot, nothing else); otherwise `float` raises
`ValueError`, modelled as `none`.
-/

def digitVal (c : Char) : Nat := c.toNat - 48

def digitsToNat (ds : List Char) : Nat :=
  ds.foldl (fun acc c => 10 * acc + digitVal c) 0

/-- Magnitude part: `\d*\.?\d*`, requiring at least one digit. -/
def pyFloatMag (cs : List Char) : Option ℚ :=
  let intPart := cs.takeWhile Char.isDigit
  let rest := cs.dropWhile Char.isDigit
  match rest with
  | [] => if intPart = [] then none else some (digitsToNat intPart : ℚ)
  | c :: r =>
    if c = '.' then
      let fracPart := r.takeWhile Char.isDigit
      if r.dropWhile Char.isDigit = [] then
        if intPart = [] ∧ fracPart = [] then none
        else some ((digitsToNat intPart : ℚ) +
          (digitsToNat fracPart : ℚ) / (10 : ℚ) ^ fracPart.length)
      else none
    else none

def pyFloatAux (cs : List Char) : Option ℚ :=
  match cs with
  | [] => none
  | c :: r => if c = '-' then (pyFloatMag r).map (fun q => -q) else pyFloatMag (c :: r)

/-- Embedding of `float(tok)` for regex-extracted tokens. -/
def pyFloat (s : String) : Option ℚ := pyFloatAux s.data

/-! ## extract_temperature

Both variants run the identical image pipeline (greyscale, Otsu
threshold, denoise, OCR with the configured tesseract options) and then
the identical text post-processing.  The image pipeline consists of
opaque library calls; it is embedded as explicit function-valued fields
of a `VisionLib` record, applied in exactly the order the source applies
them.  The text post-processing is `extractFromText`.
-/

/-- Embedding of `text.strip()`: drop whitespace from both ends. -/
def pyStrip (text : String) : String :=
  String.mk
    (((text.data.dropWhile Char.isWhitespace).reverse.dropWhile
      Char.isWhitespace).reverse)

/-- Text part of `extract_temperature` (lines 76-85 of
`temperature_monitor.py`, lines 152-161 of the headless variant):
`numbers = re.findall(...)`; on a nonempty match list, `float` of the
first token (`None` on `ValueError`); always the stripped raw text. -/
def extractFromText (text : String) : Option ℚ × String :=
  match findNumbers text with
  | [] => (none, pyStrip text)
  | n :: _ => (pyFloat n, pyStrip text)

/-- An image region; contents are opaque to the logic under verification. -/
structure Image where
  pixels : List (List Nat)

/-- The library collaborators of `extract_temperature`: `cv2.cvtColor`,
`cv2.threshold` (Otsu), `cv2.fastNlMeansDenoising`, and
`pytesseract.image_to_string` (which takes the OCR config string).
Embedded as an arbitrary record of functions, since the source treats
them as black boxes. -/
structure VisionLib where
  cvtColorGray : Image → Image
  thresholdOtsu : Image → Image
  denoise : Image → Image
  imageToString : Image → String → String

/-- `TemperatureMonitor.extract_temperature` (`temperature_monitor.py`
lines 58-85): greyscale, Otsu threshold, denoise, OCR, then the regex /
float post-processing. -/
def TM_extract_temperature (v : VisionLib) (ocr_config : String)
    (roi_frame : Image) : Option ℚ × String :=
  let gray := v.cvtColorGray roi_frame
  let thresh := v.thresholdOtsu gray
  let denoised := v.denoise thresh
  let text := v.imageToString denoised ocr_config
  extractFromText text

/-- `TemperatureMonitorHeadless.extract_temperature` (headless source
lines 146-161): the same pipeline, transcribed from the second file. -/
def TMH_extract_temperature (v : VisionLib) (ocr_config : String)
    (roi_frame : Image) : Option ℚ × String :=
  let gray := v.cvtColorGray roi_frame
  let thresh := v.thresholdOtsu gray
  let denoised := v.denoise thresh
  let text := v.imageToString denoised ocr_config
  extractFromText text

/-! ## check_alert -/

/-- `TemperatureMonitor.check_alert` (`temperature_monitor.py` lines
106-119): `False` immediately when `alert_triggered`; otherwise compare
against the configured threshold in the configured direction. -/
def TM_check_alert (alert_triggered : Bool) (threshold : ℚ)
    (direction : String) (temp : ℚ) : Bool :=
  if alert_triggered then false
  else if direction = "above" ∧ temp ≥ threshold then true
  else if direction = "below" ∧ temp ≤ threshold then true
  else false

/-- `TemperatureMonitorHeadless.check_alert` (headless source lines
180-192), transcribed from the second file. -/
def TMH_check_alert (alert_triggered : Bool) (threshold : ℚ)
    (direction : String) (temp : ℚ) : Bool :=
  if alert_triggered then false
  else if direction = "above" ∧ temp ≥ threshold then true
  else if direction = "below" ∧ temp ≤ threshold then true
  else false

/-! ## Alert state machine and logging

`trigger_alert` logs an ALERT record, sets the flag, and starts a
daemon thread that sleeps `alert_cooldown_seconds` and then clears the
flag.  The thread is embedded as a scheduled absolute reset time
appended to `pendingResets`; `fireReset` is the expiry of one such
timer.  The log file is the list of its lines; writing with mode `'a'`
appends.
-/

/-- A log line `"<timestamp> - Temperature: <value>°C - Status: <status>"`
(`temperature_monitor.py` line 99, headless line 173); the `<value>`
placeholder carries Python's rendering of the float, kept as the exact
rational it denotes. -/
def mkLogEntry (timestamp : String) (temp : ℚ) (status : String) : String :=
  timestamp ++ " - Temperature: " ++ toString temp ++ "°C - Status: " ++ status

/-- `log_temperature` (`temperature_monitor.py` lines 96-104, headless
lines 171-178): open the log with mode `'a'` and write one line. -/
def log_temperature (logFile : List String) (timestamp : String)
    (temp : ℚ) (status : String) : List String :=
  logFile ++ [mkLogEntry timestamp temp status]

structure MonitorState where
  last_temp : Option ℚ
  alert_triggered : Bool
  pendingResets : List ℚ
  logFile : List String
  frame_count : Nat

/-- `trigger_alert` (`temperature_monitor.py` lines 121-137, headless
lines 194-209): ALERT log entry, flag set, one reset scheduled
`cooldown` seconds from now. -/
def trigger_alert (timestamp : String) (now cooldown : ℚ) (temp : ℚ)
    (s : MonitorState) : MonitorState :=
  { s with
    logFile := log_temperature s.logFile timestamp temp "ALERT"
    alert_triggered := true
    pendingResets := s.pendingResets ++ [now + cooldown] }

/-- Expiry of the scheduled reset at time `t`: `reset_alert` wakes up
and clears the flag (`temperature_monitor.py` lines 132-135, headless
lines 204-207). -/
def fireReset (t : ℚ) (s : MonitorState) : MonitorState :=
  if t ∈ s.pendingResets then
    { s with alert_triggered := false, pendingResets := s.pendingResets.erase t }
  else s

/-- The alert-relevant fragment of the loop body once a reading `temp`
has been extracted (`temperature_monitor.py` lines 199-204, headless
lines 259-263): record `last_temp`, then trigger iff `check_alert`.
Returns the new state and whether `trigger_alert` was invoked. -/
def process_reading (threshold : ℚ) (direction : String) (cooldown : ℚ)
    (timestamp : String) (now temp : ℚ) (s : MonitorState) :
    MonitorState × Bool :=
  let s1 := { s with last_temp := some temp }
  if TM_check_alert s1.alert_triggered threshold direction temp then
    (trigger_alert timestamp now cooldown temp s1, true)
  else
    (s1, false)

/-! ## Configuration store

`load_config` / `save_config` (`temperature_monitor.py` lines 26-56,
headless lines 24-51) keep a dict under the supported keys in a JSON
file.  The JSON layer is embedded explicitly: `save_config` serializes
the record (`json.dump`), `load_config` parses the file when it exists
(`json.load`) and otherwise installs and saves the defaults.  JSON
integers and floats are distinct value forms, as in Python.
-/

structure Roi where
  x : Int
  y : Int
  width : Int
  height : Int
deriving DecidableEq

structure Config where
  camera_index : Int
  temperature_threshold : ℚ
  threshold_direction : String
  alert_cooldown_seconds : ℚ
  roi : Roi
  ocr_config : String
  log_file : String
  enable_preview : Option Bool
  capture_interval : Option ℚ
  log_interval : Option ℚ
deriving DecidableEq

inductive JValue where
  | jnull
  | jbool (b : Bool)
  | jint (n : Int)
  | jnum (q : ℚ)
  | jstr (s : String)
  | jobj (fields : List (String × JValue))

def jlookup (k : String) : List (String × JValue) → Option JValue
  | [] => none
  | (k1, v) :: rest => if k1 = k then some v else jlookup k rest

def JValue.asInt : JValue → Option Int
  | .jint n => some n
  | _ => none

def JValue.asNum : JValue → Option ℚ
  | .jnum q => some q
  | _ => none

def JValue.asStr : JValue → Option String
  | .jstr s => some s
  | _ => none

def JValue.asBool : JValue → Option Bool
  | .jbool b => some b
  | _ => none

def JValue.asObj : JValue → Option (List (String × JValue))
  | .jobj fs => some fs
  | _ => none

def Roi.toJson (r : Roi) : JValue :=
  .jobj [("x", .jint r.x), ("y", .jint r.y),
         ("width", .jint r.width), ("height", .jint r.height)]

def Roi.fromJson (j : JValue) : Option Roi := do
  let fs ← j.asObj
  let x ← (jlookup "x" fs).bind JValue.asInt
  let y ← (jlookup "y" fs).bind JValue.asInt
  let w ← (jlookup "width" fs).bind JValue.asInt
  let h ← (jlookup "height" fs).bind JValue.asInt
  pure { x := x, y := y, width := w, height := h }

def optField (k : String) (v : Option JValue) : List (String × JValue) :=
  match v with
  | none => []
  | some j => [(k, j)]

def Config.toJson (c : Config) : JValue :=
  .jobj ([("camera_index", .jint c.camera_index),
    ("temperature_threshold", .jnum c.temperature_threshold),
    ("threshold_direction", .jstr c.threshold_direction),
    ("alert_cooldown_seconds", .jnum c.alert_cooldown_seconds),
    ("roi", c.roi.toJson),
    ("ocr_config", .jstr c.ocr_config),
    ("log_file", .jstr c.log_file)]
    ++ optField "enable_preview" (c.enable_preview.map JValue.jbool)
    ++ optField "capture_interval" (c.capture_interval.map JValue.jnum)
    ++ optField "log_interval" (c.log_interval.map JValue.jnum))

def decodeOpt (f : JValue → Option α) : Option JValue → Option (Option α)
  | none => some none
  | some v => (f v).map some

def Config.fromJson (j : JValue) : Option Config := do
  let fs ← j.asObj
  let cam ← (jlookup "camera_index" fs).bind JValue.asInt
  let th ← (jlookup "temperature_threshold" fs).bind JValue.asNum
  let dir ← (jlookup "threshold_direction" fs).bind JValue.asStr
  let cd ← (jlookup "alert_cooldown_seconds" fs).bind JValue.asNum
  let roi ← (jlookup "roi" fs).bind Roi.fromJson
  let ocr ← (jlookup "ocr_config" fs).bind JValue.asStr
  let lf ← (jlookup "log_file" fs).bind JValue.asStr
  let ep ← decodeOpt JValue.asBool (jlookup "enable_preview" fs)
  let ci ← decodeOpt JValue.asNum (jlookup "capture_interval" fs)
  let li ← decodeOpt JValue.asNum (jlookup "log_interval" fs)
  pure { camera_index := cam, temperature_threshold := th,
         threshold_direction := dir, alert_cooldown_seconds := cd,
         roi := roi, ocr_config := ocr, log_file := lf,
         enable_preview := ep, capture_interval := ci, log_interval := li }

/-- The config file: absent, or holding one JSON document. -/
structure FileState where
  content : Option JValue

/-- `save_config`: `json.dump(self.config, f)` with mode `'w'`, so the
previous file content is discarded. -/
def save_config (cfg : Config) (_fs : FileState) : FileState :=
  ⟨some cfg.toJson⟩

/-- `load_config`: when the file exists, `json.load` it; otherwise use
the defaults and write them out.  The parse result is an `Option`: the
source stores whatever dict arrives, and a dict missing a supported key
fails at its first use. -/
def load_config (defaultConfig : Config) (fs : FileState) :
    Option Config × FileState :=
  match fs.content with
  | some j => (Config.fromJson j, fs)
  | none => (some defaultConfig, save_config defaultConfig fs)

/-! ## Region of interest -/

/-- The 'r' key handler (`temperature_monitor.py` lines 238-248):
`h_frame, w_frame = frame.shape[:2]` and the ROI becomes
`x = w_frame // 4, y = h_frame // 4, width = w_frame // 2,
height = h_frame // 4`. -/
def reset_roi (w_frame h_frame : Nat) : Roi :=
  { x := ((w_frame / 4 : Nat) : Int), y := ((h_frame / 4 : Nat) : Int),
    width := ((w_frame / 2 : Nat) : Int), height := ((h_frame / 4 : Nat) : Int) }

/-- The crop `frame[y:y+h, x:x+w]` requests only in-bounds coordinates. -/
def roiWithinFrame (r : Roi) (w_frame h_frame : Nat) : Prop :=
  0 ≤ r.x ∧ 0 ≤ r.y ∧ r.x + r.width ≤ (w_frame : Int) ∧
    r.y + r.height ≤ (h_frame : Int)

instance (r : Roi) (w h : Nat) : Decidable (roiWithinFrame r w h) := by
  unfold roiWithinFrame
  infer_instance

/-- Configurations the monitor loop can hold: the initial one is whatever
well-typed config the file supplied (`load_config` validates nothing),
and the runtime key handlers replace the ROI by `reset_roi` of the
current frame or move the threshold by one. -/
inductive ReachableConfig : Config → Prop where
  | loaded (cfg : Config) : ReachableConfig cfg
  | resetRoi (cfg : Config) (w h : Nat) (hc : ReachableConfig cfg) :
      ReachableConfig { cfg with roi := reset_roi w h }
  | incThreshold (cfg : Config) (hc : ReachableConfig cfg) :
      ReachableConfig
        { cfg with temperature_threshold := cfg.temperature_threshold + 1 }
  | decThreshold (cfg : Config) (hc : ReachableConfig cfg) :
      ReachableConfig
        { cfg with temperature_threshold := cfg.temperature_threshold - 1 }

/-! ## The poll loops

Each loop iteration consumes one `Tick` of environmental input: whether
a `KeyboardInterrupt` strikes during the iteration, whether
`cap.read()` succeeded, the OCR text the vision pipeline produced for
the cropped region, the wall-clock data, whether the periodic-logging
condition holds this iteration, and (interactive variant) the pressed
key and the frame dimensions.  The loop functions recurse over the tick
list; an exhausted list stands for the environment ending the
`while self.running` loop, which leaves the loop normally.
-/

structure Tick where
  interrupt : Bool
  frame_ok : Bool
  ocr_text : String
  timestamp : String
  now : ℚ
  should_log : Bool
  key : Char
  frame_w : Nat
  frame_h : Nat

inductive RunOutcome where
  | returned
  | raised
deriving DecidableEq

/-- What one successful frame does to the monitor state once read
(shared shape of `temperature_monitor.py` lines 196-213 and headless
lines 257-268): extract; if a value came back, record it, run the alert
machine, and append a normal log line when the periodic condition
holds; otherwise touch nothing. -/
def frame_update (threshold : ℚ) (direction : String) (cooldown : ℚ)
    (t : Tick) (s : MonitorState) : MonitorState :=
  match (extractFromText t.ocr_text).1 with
  | none => s
  | some temp =>
    let s1 := (process_reading threshold direction cooldown
      t.timestamp t.now temp s).1
    if t.should_log then
      { s1 with logFile := log_temperature s1.logFile t.timestamp temp "normal" }
    else s1

/-- Headless loop body for one tick that passed the interrupt check:
`ret` failure warns and continues; success bumps `frame_count`, crops,
and runs `frame_update`. -/
def headless_body (threshold : ℚ) (direction : String) (cooldown : ℚ)
    (t : Tick) (s : MonitorState) : MonitorState :=
  frame_update threshold direction cooldown t
    { s with frame_count := s.frame_count + 1 }

structure RunResult where
  state : MonitorState
  console : List String
  released : Bool
  outcome : RunOutcome

/-- `TemperatureMonitorHeadless.run` loop (headless lines 243-277):
`try: while ... except KeyboardInterrupt: print(...) finally:
cap.release()`.  Every way out of the `try` block passes through the
`finally`, so the camera is released on each branch. -/
def run_headless (threshold : ℚ) (direction : String) (cooldown : ℚ) :
    List Tick → MonitorState → List String → RunResult
  | [], s, con => ⟨s, con, true, .returned⟩
  | t :: rest, s, con =>
    if t.interrupt then
      ⟨s, con ++ ["Stopping monitor..."], true, .returned⟩
    else if t.frame_ok = false then
      run_headless threshold direction cooldown rest s
        (con ++ ["Warning: Could not read frame"])
    else
      run_headless threshold direction cooldown rest
        (headless_body threshold direction cooldown t s) con

structure IRunResult where
  config : Config
  state : MonitorState
  file : FileState
  console : List String
  released : Bool
  outcome : RunOutcome

/-- `TemperatureMonitor.run` loop (`temperature_monitor.py` lines
181-268).  There is no `try`/`finally`: `cap.release()` (line 266) runs
only when the `while` loop is left by `break` or by its condition, so a
`KeyboardInterrupt` propagates out of `run` with the camera still open.
Key handlers `'q'`/`'r'`/`'+'`/`'-'` follow the source order; the key
check comes after the frame is processed. -/
def run_interactive :
    List Tick → Config → MonitorState → FileState → List String → IRunResult
  | [], cfg, s, fs, con => ⟨cfg, s, fs, con, true, .returned⟩
  | t :: rest, cfg, s, fs, con =>
    if t.interrupt then
      ⟨cfg, s, fs, con, false, .raised⟩
    else if t.frame_ok = false then
      ⟨cfg, s, fs, con ++ ["Error: Could not read frame"], true, .returned⟩
    else
      let s1 := frame_update cfg.temperature_threshold cfg.threshold_direction
        cfg.alert_cooldown_seconds t s
      if t.key = 'q' then
        ⟨cfg, s1, fs, con ++ ["Stopping monitor..."], true, .returned⟩
      else if t.key = 'r' then
        let cfg1 := { cfg with roi := reset_roi t.frame_w t.frame_h }
        run_interactive rest cfg1 s1 (save_config cfg1 fs)
          (con ++ ["ROI reset to center of frame"])
      else if t.key = '+' then
        let cfg1 := { cfg with
          temperature_threshold := cfg.temperature_threshold + 1 }
        run_interactive rest cfg1 s1 (save_config cfg1 fs) con
      else if t.key = '-' then
        let cfg1 := { cfg with
          temperature_threshold := cfg.temperature_threshold - 1 }
        run_interactive rest cfg1 s1 (save_config cfg1 fs) con
      else
        run_interactive rest cfg s1 fs con

/-- A whole sequence of extracted readings fed to the alert machine,
each as (timestamp, now, temp). -/
def process_readings (threshold : ℚ) (direction : String) (cooldown : ℚ)
    (rs : List (String × ℚ × ℚ)) (s : MonitorState) : MonitorState :=
  rs.foldl (fun s1 r =>
    (process_reading threshold direction cooldown r.1 r.2.1 r.2.2 s1).1) s

/-- The `default_config` dict of `temperature_monitor.py` lines 28-42. -/
def TM_default_config : Config :=
  { camera_index := 0, temperature_threshold := 50, threshold_direction := "above",
    alert_cooldown_seconds := 60, roi := ⟨100, 100, 200, 100⟩,
    ocr_config := "--psm 7 -c tessedit_char_whitelist=0123456789.-°CF",
    log_file := "temperature_log.txt", enable_preview := some true,
    capture_interval := none, log_interval := none }

/-- The `default_config` dict of the headless variant, lines 25-40. -/
def TMH_default_config : Config :=
  { camera_index := 0, temperature_threshold := 50, threshold_direction := "above",
    alert_cooldown_seconds := 60, roi := ⟨200, 150, 150, 80⟩,
    ocr_config := "--psm 7 -c tessedit_char_whitelist=0123456789.-°CF",
    log_file := "temperature_log.txt", enable_preview := none,
    capture_interval := some 1, log_interval := some 10 }

/-- The monitor state right after `__init__`: no reading yet, flag
down, no cooldown thread, no frames processed.  The log file is taken
empty. -/
def initialMonitorState : MonitorState :=
  { last_temp := none, alert_triggered := false, pendingResets := [],
    logFile := [], frame_count := 0 }

/-- Shape of every line `log_temperature` ever writes: some timestamp
and value, status `normal` or `ALERT`. -/
def WellFormedLogLine (line : String) : Prop :=
  ∃ ts v, line = mkLogEntry ts v "normal" ∨ line = mkLogEntry ts v "ALERT"

/-- A loaded configuration whose ROI starts at x = 1000: `load_config`
accepts it unexamined. -/
def wideRoiConfig : Config :=
  { camera_index := 0, temperature_threshold := 50, threshold_direction := "above",
    alert_cooldown_seconds := 60, roi := ⟨1000, 0, 10, 10⟩,
    ocr_config := "--psm 7 -c tessedit_char_whitelist=0123456789.-°CF",
    log_file := "temperature_log.txt", enable_preview := some true,
    capture_interval := none, log_interval := none }

/-- An iteration during which a `KeyboardInterrupt` strikes. -/
def interruptTick : Tick :=
  { interrupt := true, frame_ok := true, ocr_text := "", timestamp := "",
    now := 0, should_log := false, key := ' ', frame_w := 640, frame_h := 480 }

/-- An iteration whose `cap.read()` returns `ret = False`. -/
def failTick : Tick :=
  { interrupt := false, frame_ok := false, ocr_text := "", timestamp := "",
    now := 0, should_log := false, key := ' ', frame_w := 640, frame_h := 480 }

/-- An iteration whose OCR text contains no digit. -/
def noDigitTick : Tick :=
  { interrupt := false, frame_ok := true, ocr_text := "ab", timestamp := "t",
    now := 0, should_log := true, key := ' ', frame_w := 640, frame_h := 480 }

/-- A monitor state in which an alert is in force. -/
def alertingState : MonitorState :=
  { last_temp := some 100, alert_triggered := true, pendingResets := [],
    logFile := [], frame_count := 0 }

/-! ## Supporting lemmas -/

theorem matchBody_decomp {cs tok rest : List Char}
    (h : matchBody cs = some (tok, rest)) : cs = tok ++ rest ∧ tok ≠ [] := by
  have hcs : cs = cs.takeWhile Char.isDigit ++ cs.dropWhile Char.isDigit :=
    (List.takeWhile_append_dropWhile ..).symm
  simp only [matchBody] at h
  split at h
  · simp at h
  · rename_i hds
    split at h
    · rename_i c cs3 hdr
      split at h
      · rename_i hdot
        simp only [Option.some.injEq, Prod.mk.injEq] at h
        rcases h with ⟨htok, hrest⟩
        subst hdot
        constructor
        · rw [hcs, hdr, ← hrest, ← htok]
          have h3 : cs3 = cs3.takeWhile Char.isDigit ++ cs3.dropWhile Char.isDigit :=
            (List.takeWhile_append_dropWhile ..).symm
          conv_lhs => rw [h3]
          simp
        · rw [← htok]; simp
      · simp only [Option.some.injEq, Prod.mk.injEq] at h
        rcases h with ⟨htok, hrest⟩
        refine ⟨?_, by rw [← htok]; exact hds⟩
        rw [hcs, hdr, ← hrest, ← htok]
    · rename_i hdr
      simp only [Option.some.injEq, Prod.mk.injEq] at h
      rcases h with ⟨htok, hrest⟩
      refine ⟨?_, by rw [← htok]; exact hds⟩
      rw [hcs, hdr, ← hrest, ← htok]

theorem matchNum_decomp {cs tok rest : List Char}
    (h : matchNum cs = some (tok, rest)) : cs = tok ++ rest ∧ tok ≠ [] := by
  simp only [matchNum] at h
  split at h
  · simp at h
  · rename_i c cs0
    split at h
    · rename_i hc
      subst hc
      split at h
      · rename_i tok0 rest0 hb
        simp only [Option.some.injEq, Prod.mk.injEq] at h
        rcases h with ⟨htok, hrest⟩
        rcases matchBody_decomp hb with ⟨hdec, _⟩
        refine ⟨?_, by rw [← htok]; simp⟩
        rw [← htok, ← hrest, hdec]
        rfl
      · simp at h
    · exact matchBody_decomp h

theorem matchNum_rest_length {cs tok rest : List Char}
    (h : matchNum cs = some (tok, rest)) : rest.length < cs.length := by
  rcases matchNum_decomp h with ⟨hdec, hne⟩
  rw [hdec, List.length_append]
  rcases tok with _ | ⟨t, ts⟩
  · exact absurd rfl hne
  · simp only [List.length_cons]
    omega

theorem findNumbersFuel_fuel_irrelevant :
    ∀ f1 : Nat, ∀ f2 : Nat, ∀ cs : List Char, cs.length ≤ f1 → cs.length ≤ f2 →
      findNumbersFuel f1 cs = findNumbersFuel f2 cs := by
  intro f1
  induction f1 with
  | zero =>
    intro f2 cs h1 _
    have : cs = [] := List.length_eq_zero.mp (Nat.le_zero.mp h1)
    subst this
    cases f2 <;> rfl
  | succ f ih =>
    intro f2 cs h1 h2
    rcases cs with _ | ⟨c, cs0⟩
    · cases f2 <;> rfl
    · rcases f2 with _ | f2'
      · simp at h2
      · simp only [findNumbersFuel]
        rcases hm : matchNum (c :: cs0) with _ | ⟨tok, rest⟩
        · simp only [List.length_cons] at h1 h2
          show findNumbersFuel f cs0 = findNumbersFuel f2' cs0
          exact ih f2' cs0 (by omega) (by omega)
        · have hlen := matchNum_rest_length hm
          simp only [List.length_cons] at h1 h2 hlen
          show tok :: findNumbersFuel f rest = tok :: findNumbersFuel f2' rest
          rw [ih f2' rest (by omega) (by omega)]

theorem takeWhile_self_of_all {p : Char → Bool} {l : List Char}
    (h : ∀ a ∈ l, p a) : l.takeWhile p = l :=
  List.takeWhile_eq_self_iff.mpr h

theorem dropWhile_nil_of_all {p : Char → Bool} {l : List Char}
    (h : ∀ a ∈ l, p a) : l.dropWhile p = [] :=
  List.dropWhile_eq_nil_iff.mpr h

theorem matchBody_parses {cs tok rest : List Char}
    (h : matchBody cs = some (tok, rest)) : ∃ q, pyFloatMag tok = some q := by
  have hdsall : ∀ a ∈ cs.takeWhile Char.isDigit, a.isDigit :=
    fun a ha => List.mem_takeWhile_imp ha
  simp only [matchBody] at h
  split at h
  · simp at h
  · rename_i hds
    split at h
    · rename_i c cs3 hdr
      split at h
      · rename_i hdot
        subst hdot
        simp only [Option.some.injEq, Prod.mk.injEq] at h
        rcases h with ⟨htok, _⟩
        have hfsall : ∀ a ∈ cs3.takeWhile Char.isDigit, a.isDigit :=
          fun a ha => List.mem_takeWhile_imp ha
        refine ⟨(digitsToNat (cs.takeWhile Char.isDigit) : ℚ) +
          (digitsToNat (cs3.takeWhile Char.isDigit) : ℚ) /
            (10 : ℚ) ^ (cs3.takeWhile Char.isDigit).length, ?_⟩
        rw [← htok]
        simp only [pyFloatMag]
        rw [List.takeWhile_append_of_pos hdsall,
            List.dropWhile_append_of_pos hdsall]
        rw [List.takeWhile_cons_of_neg (by decide),
            List.dropWhile_cons_of_neg (by decide)]
        simp only [List.append_nil, if_pos rfl]
        rw [takeWhile_self_of_all hfsall, dropWhile_nil_of_all hfsall]
        simp [hds]
      · simp only [Option.some.injEq, Prod.mk.injEq] at h
        rcases h with ⟨htok, _⟩
        refine ⟨(digitsToNat (cs.takeWhile Char.isDigit) : ℚ), ?_⟩
        rw [← htok]
        simp only [pyFloatMag]
        rw [takeWhile_self_of_all hdsall, dropWhile_nil_of_all hdsall]
        simp [hds]
    · rename_i hdr
      simp only [Option.some.injEq, Prod.mk.injEq] at h
      rcases h with ⟨htok, _⟩
      refine ⟨(digitsToNat (cs.takeWhile Char.isDigit) : ℚ), ?_⟩
      rw [← htok]
      simp only [pyFloatMag]
      rw [takeWhile_self_of_all hdsall, dropWhile_nil_of_all hdsall]
      simp [hds]

theorem matchBody_head_digit {cs tok rest : List Char}
    (h : matchBody cs = some (tok, rest)) :
    ∃ d ds, tok = d :: ds ∧ d.isDigit := by
  simp only [matchBody] at h
  split at h
  · simp at h
  · rename_i hds
    rcases hdsd : cs.takeWhile Char.isDigit with _ | ⟨d, ds0⟩
    · exact absurd hdsd hds
    · have hd : d.isDigit := List.mem_takeWhile_imp (by rw [hdsd]; exact List.mem_cons_self ..)
      split at h
      · rename_i c cs3 hdr
        split at h
        · simp only [Option.some.injEq, Prod.mk.injEq] at h
          rcases h with ⟨htok, _⟩
          rw [hdsd] at htok
          exact ⟨d, ds0 ++ '.' :: cs3.takeWhile Char.isDigit, by rw [← htok]; rfl, hd⟩
        · simp only [Option.some.injEq, Prod.mk.injEq] at h
          rcases h with ⟨htok, _⟩
          rw [hdsd] at htok
          exact ⟨d, ds0, htok.symm, hd⟩
      · simp only [Option.some.injEq, Prod.mk.injEq] at h
        rcases h with ⟨htok, _⟩
        rw [hdsd] at htok
        exact ⟨d, ds0, htok.symm, hd⟩

theorem matchNum_parses {cs tok rest : List Char}
    (h : matchNum cs = some (tok, rest)) : ∃ q, pyFloatAux tok = some q := by
  simp only [matchNum] at h
  split at h
  · simp at h
  · rename_i c cs0
    split at h
    · rename_i hc
      subst hc
      split at h
      · rename_i tok0 rest0 hb
        simp only [Option.some.injEq, Prod.mk.injEq] at h
        rcases h with ⟨htok, _⟩
        rcases matchBody_parses hb with ⟨q, hq⟩
        refine ⟨-q, ?_⟩
        rw [← htok]
        simp [pyFloatAux, hq]
      · simp at h
    · rename_i hc
      rcases matchBody_head_digit h with ⟨d, ds, htok, hd⟩
      rcases matchBody_parses h with ⟨q, hq⟩
      refine ⟨q, ?_⟩
      rw [htok]
      have hdm : d ≠ '-' := by
        intro he
        rw [he] at hd
        exact absurd hd (by decide)
      rw [htok] at hq
      simp [pyFloatAux, hdm, hq]

theorem matchBody_none_of_no_digit {cs : List Char}
    (h : ∀ a ∈ cs, a.isDigit = false) : matchBody cs = none := by
  have hds : cs.takeWhile Char.isDigit = [] := by
    rcases cs with _ | ⟨c, cs0⟩
    · rfl
    · rw [List.takeWhile_cons_of_neg]
      simp [h c (List.mem_cons_self ..)]
  simp [matchBody, hds]

theorem matchNum_none_of_no_digit {cs : List Char}
    (h : ∀ a ∈ cs, a.isDigit = false) : matchNum cs = none := by
  rcases cs with _ | ⟨c, cs0⟩
  · rfl
  · simp only [matchNum]
    by_cases hc : c = '-'
    · rw [if_pos hc,
        matchBody_none_of_no_digit (fun a ha => h a (List.mem_cons_of_mem _ ha))]
    · rw [if_neg hc, matchBody_none_of_no_digit h]

theorem matchBody_some_of_digit {c : Char} {cs : List Char} (hc : c.isDigit) :
    ∃ tok rest, matchBody (c :: cs) = some (tok, rest) := by
  simp only [matchBody, List.takeWhile_cons_of_pos hc, List.dropWhile_cons_of_pos hc]
  rcases hdr : cs.dropWhile Char.isDigit with _ | ⟨e, es⟩
  · exact ⟨_, _, rfl⟩
  · by_cases he : e = '.'
    · subst he
      refine ⟨c :: List.takeWhile Char.isDigit cs ++ '.' :: List.takeWhile Char.isDigit es,
             List.dropWhile Char.isDigit es, ?_⟩
      rw [if_neg (by simp)]
      rfl
    · refine ⟨c :: List.takeWhile Char.isDigit cs, e :: es, ?_⟩
      rw [if_neg (by simp)]
      simp [he]

theorem findNumbersFuel_nil_of_no_digit :
    ∀ fuel : Nat, ∀ cs : List Char, (∀ a ∈ cs, a.isDigit = false) →
      findNumbersFuel fuel cs = [] := by
  intro fuel
  induction fuel with
  | zero => intro cs _; rfl
  | succ f ih =>
    intro cs h
    rcases cs with _ | ⟨c, cs0⟩
    · rfl
    · simp only [findNumbersFuel, matchNum_none_of_no_digit h]
      exact ih cs0 (fun a ha => h a (List.mem_cons_of_mem _ ha))

theorem findNumbersFuel_ne_nil_of_digit :
    ∀ fuel : Nat, ∀ cs : List Char, cs.length ≤ fuel →
      (∃ c ∈ cs, c.isDigit) → findNumbersFuel fuel cs ≠ [] := by
  intro fuel
  induction fuel with
  | zero =>
    intro cs h1 h2
    have : cs = [] := List.length_eq_zero.mp (Nat.le_zero.mp h1)
    subst this
    simp at h2
  | succ f ih =>
    intro cs h1 h2
    rcases cs with _ | ⟨c, cs0⟩
    · simp at h2
    · simp only [findNumbersFuel]
      rcases hm : matchNum (c :: cs0) with _ | ⟨tok, rest⟩
      · by_cases hc : c.isDigit
        · exfalso
          have hcm : c ≠ '-' := by
            intro he; rw [he] at hc; exact absurd hc (by decide)
          rcases @matchBody_some_of_digit c cs0 hc with ⟨tok, rest, hb⟩
          rw [matchNum, if_neg hcm, hb] at hm
          exact Option.noConfusion hm
        · rcases h2 with ⟨d, hd, hdig⟩
          rcases List.mem_cons.mp hd with he | hd0
          · subst he; exact absurd hdig hc
          · simp only [List.length_cons] at h1
            exact ih cs0 (by omega) ⟨d, hd0, hdig⟩
      · simp

theorem findNumbersFuel_parses :
    ∀ fuel : Nat, ∀ cs : List Char, ∀ tok ∈ findNumbersFuel fuel cs,
      ∃ q, pyFloatAux tok = some q := by
  intro fuel
  induction fuel with
  | zero => intro cs tok h; simp [findNumbersFuel] at h
  | succ f ih =>
    intro cs tok h
    rcases cs with _ | ⟨c, cs0⟩
    · simp [findNumbersFuel] at h
    · simp only [findNumbersFuel] at h
      rcases hm : matchNum (c :: cs0) with _ | ⟨tok0, rest⟩
      · rw [hm] at h
        exact ih cs0 tok h
      · rw [hm] at h
        rcases List.mem_cons.mp h with he | hmem
        · subst he
          exact matchNum_parses hm
        · exact ih rest tok hmem

theorem extractFromText_none_of_no_digit {text : String}
    (h : ∀ a ∈ text.data, a.isDigit = false) :
    (extractFromText text).1 = none := by
  have : findNumbers text = [] := by
    simp only [findNumbers, findNumbersAux]
    rw [findNumbersFuel_nil_of_no_digit _ _ h]
    rfl
  simp [extractFromText, this]

theorem extractFromText_some_of_digit {text : String}
    (h : ∃ c ∈ text.data, c.isDigit) :
    ∃ q, (extractFromText text).1 = some q := by
  have hne : findNumbersFuel text.data.length text.data ≠ [] :=
    findNumbersFuel_ne_nil_of_digit _ _ le_rfl h
  rcases hl : findNumbersFuel text.data.length text.data with _ | ⟨tok, toks⟩
  · exact absurd hl hne
  · have htok : tok ∈ findNumbersFuel text.data.length text.data := by
      rw [hl]; exact List.mem_cons_self ..
    rcases findNumbersFuel_parses _ _ tok htok with ⟨q, hq⟩
    refine ⟨q, ?_⟩
    simp only [extractFromText, findNumbers, findNumbersAux, hl]
    simp [pyFloat, hq]

theorem process_reading_alerting (threshold : ℚ) (direction : String)
    (cooldown : ℚ) (ts : String) (now v : ℚ) (s : MonitorState)
    (halert : s.alert_triggered = true) :
    process_reading threshold direction cooldown ts now v s =
      ({ s with last_temp := some v }, false) := by
  unfold process_reading
  simp [TM_check_alert, halert]

theorem process_readings_cons (threshold : ℚ) (direction : String)
    (cooldown : ℚ) (r : String × ℚ × ℚ) (rs : List (String × ℚ × ℚ))
    (s : MonitorState) :
    process_readings threshold direction cooldown (r :: rs) s =
      process_readings threshold direction cooldown rs
        (process_reading threshold direction cooldown r.1 r.2.1 r.2.2 s).1 := rfl

theorem process_readings_alerting (threshold : ℚ) (direction : String)
    (cooldown : ℚ) (rs : List (String × ℚ × ℚ)) :
    ∀ s : MonitorState, s.alert_triggered = true →
      (process_readings threshold direction cooldown rs s).alert_triggered = true ∧
      (process_readings threshold direction cooldown rs s).pendingResets =
        s.pendingResets ∧
      (process_readings threshold direction cooldown rs s).logFile = s.logFile := by
  induction rs with
  | nil => intro s h; exact ⟨h, rfl, rfl⟩
  | cons r rs ih =>
    intro s h
    rw [process_readings_cons,
        process_reading_alerting threshold direction cooldown r.1 r.2.1 r.2.2 s h]
    exact ih { s with last_temp := some r.2.2 } h

theorem run_headless_released (threshold : ℚ) (direction : String)
    (cooldown : ℚ) :
    ∀ ticks : List Tick, ∀ s : MonitorState, ∀ con : List String,
      (run_headless threshold direction cooldown ticks s con).released = true := by
  intro ticks
  induction ticks with
  | nil => intro s con; rfl
  | cons t rest ih =>
    intro s con
    simp only [run_headless]
    split_ifs with h1 h2
    · rfl
    · exact ih s _
    · exact ih _ con

theorem run_interactive_release :
    ∀ ticks : List Tick, ∀ cfg : Config, ∀ s : MonitorState,
      ∀ fs : FileState, ∀ con : List String,
      (run_interactive ticks cfg s fs con).released = true ∨
      (run_interactive ticks cfg s fs con).outcome = RunOutcome.raised := by
  intro ticks
  induction ticks with
  | nil => intro cfg s fs con; left; rfl
  | cons t rest ih =>
    intro cfg s fs con
    simp only [run_interactive]
    split_ifs with h1 h2 h3 h4 h5 h6
    · right; rfl
    · left; rfl
    · left; rfl
    · exact ih _ _ _ _
    · exact ih _ _ _ _
    · exact ih _ _ _ _
    · exact ih _ _ _ _

theorem process_reading_eq (threshold : ℚ) (direction : String)
    (cooldown : ℚ) (ts : String) (now v : ℚ) (s : MonitorState) :
    process_reading threshold direction cooldown ts now v s =
      if TM_check_alert s.alert_triggered threshold direction v = true then
        (trigger_alert ts now cooldown v { s with last_temp := some v }, true)
      else ({ s with last_temp := some v }, false) := rfl

theorem process_reading_log (threshold : ℚ) (direction : String)
    (cooldown : ℚ) (ts : String) (now v : ℚ) (s : MonitorState) :
    ∃ extra : List String,
      (process_reading threshold direction cooldown ts now v s).1.logFile =
        s.logFile ++ extra ∧
      ∀ l ∈ extra, WellFormedLogLine l := by
  rw [process_reading_eq]
  split_ifs with hc
  · refine ⟨[mkLogEntry ts v "ALERT"], rfl, ?_⟩
    intro l hl
    rw [List.mem_singleton] at hl
    exact ⟨ts, v, Or.inr hl⟩
  · exact ⟨[], by simp, by simp⟩

theorem frame_update_log (threshold : ℚ) (direction : String)
    (cooldown : ℚ) (t : Tick) (s : MonitorState) :
    ∃ extra : List String,
      (frame_update threshold direction cooldown t s).logFile =
        s.logFile ++ extra ∧
      ∀ l ∈ extra, WellFormedLogLine l := by
  unfold frame_update
  split
  · exact ⟨[], by simp, by simp⟩
  · rename_i temp hex
    rcases process_reading_log threshold direction cooldown
        t.timestamp t.now temp s with ⟨e1, he1, hwf1⟩
    split_ifs with hl
    · refine ⟨e1 ++ [mkLogEntry t.timestamp temp "normal"], ?_, ?_⟩
      · show log_temperature
          (process_reading threshold direction cooldown
            t.timestamp t.now temp s).1.logFile t.timestamp temp "normal" = _
        unfold log_temperature
        rw [he1, List.append_assoc]
      · intro l hl2
        rcases List.mem_append.mp hl2 with h | h
        · exact hwf1 l h
        · rw [List.mem_singleton] at h
          exact ⟨t.timestamp, temp, Or.inl h⟩
    · exact ⟨e1, he1, hwf1⟩

theorem headless_body_log (threshold : ℚ) (direction : String)
    (cooldown : ℚ) (t : Tick) (s : MonitorState) :
    ∃ extra : List String,
      (headless_body threshold direction cooldown t s).logFile =
        s.logFile ++ extra ∧
      ∀ l ∈ extra, WellFormedLogLine l :=
  frame_update_log threshold direction cooldown t
    { s with frame_count := s.frame_count + 1 }

theorem run_headless_log (threshold : ℚ) (direction : String)
    (cooldown : ℚ) :
    ∀ ticks : List Tick, ∀ s : MonitorState, ∀ con : List String,
      ∃ extra : List String,
        (run_headless threshold direction cooldown ticks s con).state.logFile =
          s.logFile ++ extra ∧
        ∀ l ∈ extra, WellFormedLogLine l := by
  intro ticks
  induction ticks with
  | nil => intro s con; exact ⟨[], by simp [run_headless], by simp⟩
  | cons t rest ih =>
    intro s con
    simp only [run_headless]
    split_ifs with h1 h2
    · exact ⟨[], by simp, by simp⟩
    · exact ih s _
    · rcases headless_body_log threshold direction cooldown t s with ⟨e1, he1, hw1⟩
      rcases ih (headless_body threshold direction cooldown t s) con with
        ⟨e2, he2, hw2⟩
      refine ⟨e1 ++ e2, ?_, ?_⟩
      · rw [he2, he1, List.append_assoc]
      · intro l hl
        rcases List.mem_append.mp hl with h | h
        · exact hw1 l h
        · exact hw2 l h

theorem run_interactive_log :
    ∀ ticks : List Tick, ∀ cfg : Config, ∀ s : MonitorState,
      ∀ fs : FileState, ∀ con : List String,
      ∃ extra : List String,
        (run_interactive ticks cfg s fs con).state.logFile =
          s.logFile ++ extra ∧
        ∀ l ∈ extra, WellFormedLogLine l := by
  intro ticks
  induction ticks with
  | nil => intro cfg s fs con; exact ⟨[], by simp [run_interactive], by simp⟩
  | cons t rest ih =>
    intro cfg s fs con
    have hbody := frame_update_log cfg.temperature_threshold
      cfg.threshold_direction cfg.alert_cooldown_seconds t s
    rcases hbody with ⟨e1, he1, hw1⟩
    simp only [run_interactive]
    split_ifs with h1 h2 h3 h4 h5 h6
    · exact ⟨[], by simp, by simp⟩
    · exact ⟨[], by simp, by simp⟩
    · exact ⟨e1, he1, hw1⟩
    all_goals {
      rcases ih _ (frame_update cfg.temperature_threshold
          cfg.threshold_direction cfg.alert_cooldown_seconds t s) _ _ with
        ⟨e2, he2, hw2⟩
      refine ⟨e1 ++ e2, ?_, ?_⟩
      · rw [he2, he1, List.append_assoc]
      · intro l hl
        rcases List.mem_append.mp hl with h | h
        · exact hw1 l h
        · exact hw2 l h
    }

/-! ## Claims -/

/-- C1, corrected.  As stated ("for every reading v, threshold T and
direction D, check_alert(v) is true iff (D = above and v ≥ T) or
(D = below and v ≤ T)") the claim is false once the alerting flag is
set, since `check_alert` then returns `False` regardless of the
reading; `C1_counterexample` exhibits this.  Amended with the flag not
set, the biconditional holds. -/
theorem C1_check_alert_iff (T v : ℚ) (D : String) :
    TM_check_alert false T D v = true ↔
      ((D = "above" ∧ v ≥ T) ∨ (D = "below" ∧ v ≤ T)) := by
  unfold TM_check_alert
  split_ifs <;> simp_all

/-- C1, the claim as frozen is false: in a state with the alert flag
set, the reading 100 with threshold 50 and direction "above" satisfies
the right-hand side, yet `check_alert` returns `False`. -/
theorem C1_counterexample :
    ¬ (TM_check_alert true 50 "above" 100 = true ↔
        (("above" = "above" ∧ (100 : ℚ) ≥ 50) ∨
         ("above" = "below" ∧ (100 : ℚ) ≤ 50))) := by
  intro h
  have h2 : TM_check_alert true 50 "above" 100 = true :=
    h.mpr (Or.inl ⟨rfl, by decide⟩)
  simp [TM_check_alert] at h2

/-- C2: while the alerting flag is set, a qualifying reading changes
nothing: `check_alert` is false, `trigger_alert` is not invoked (the
returned flag is false and the state changes only in `last_temp`);
and from entry into alerting exactly one reset is scheduled, for
`cooldown` seconds after the alert, surviving any further readings
unchanged, and firing it returns the monitor to normal with no timer
left. -/
theorem C2_alerting_no_state_change (threshold : ℚ) (direction : String)
    (cooldown : ℚ) (s : MonitorState) (ts : String) (now v : ℚ)
    (s0 : MonitorState) (ts0 : String) (now0 v0 : ℚ)
    (rs : List (String × ℚ × ℚ))
    (halert : s.alert_triggered = true)
    (hqual : (direction = "above" ∧ v ≥ threshold) ∨
             (direction = "below" ∧ v ≤ threshold))
    (hp0 : s0.pendingResets = []) :
    TM_check_alert s.alert_triggered threshold direction v = false ∧
    (process_reading threshold direction cooldown ts now v s).2 = false ∧
    (process_reading threshold direction cooldown ts now v s).1 =
      { s with last_temp := some v } ∧
    (process_readings threshold direction cooldown rs
        (trigger_alert ts0 now0 cooldown v0 s0)).pendingResets =
      [now0 + cooldown] ∧
    (fireReset (now0 + cooldown)
        (process_readings threshold direction cooldown rs
          (trigger_alert ts0 now0 cooldown v0 s0))).alert_triggered = false ∧
    (fireReset (now0 + cooldown)
        (process_readings threshold direction cooldown rs
          (trigger_alert ts0 now0 cooldown v0 s0))).pendingResets = [] := by
  have hcheck : TM_check_alert s.alert_triggered threshold direction v = false := by
    rw [halert]
    rfl
  have hpr := process_reading_alerting threshold direction cooldown ts now v s halert
  have htrig : (trigger_alert ts0 now0 cooldown v0 s0).alert_triggered = true := rfl
  have hpend : (trigger_alert ts0 now0 cooldown v0 s0).pendingResets =
      [now0 + cooldown] := by
    show s0.pendingResets ++ [now0 + cooldown] = [now0 + cooldown]
    rw [hp0]
    rfl
  rcases process_readings_alerting threshold direction cooldown rs
      (trigger_alert ts0 now0 cooldown v0 s0) htrig with ⟨ha, hp, _⟩
  rw [hpend] at hp
  refine ⟨hcheck, by rw [hpr], by rw [hpr], hp, ?_, ?_⟩
  · simp [fireReset, hp]
  · simp [fireReset, hp]

/-- C2 witness: concrete instantiation at threshold 50, direction
"above", cooldown 60, an alerting state, reading 100, and one further
qualifying reading. -/
theorem C2_witness :
    TM_check_alert alertingState.alert_triggered 50 "above" 100 = false :=
  (C2_alerting_no_state_change 50 "above" 60 alertingState "t" 1 100
    initialMonitorState "t0" 0 100 [("t2", 2, 100)] rfl
    (Or.inl ⟨rfl, by decide⟩) rfl).1

/-- C3: OCR text "12.5C" yields the extracted value 12.5 with raw text
"12.5C"; OCR text containing no digit yields no value, and the monitor
state of that frame (last reading, alert flag) is unchanged. -/
theorem C3_extraction (threshold : ℚ) (direction : String) (cooldown : ℚ)
    (t : Tick) (s : MonitorState)
    (htext : ∀ c ∈ t.ocr_text.data, c.isDigit = false) :
    (extractFromText "12.5C").1 = some (12.5 : ℚ) ∧
    (extractFromText "12.5C").2 = "12.5C" ∧
    (extractFromText t.ocr_text).1 = none ∧
    (frame_update threshold direction cooldown t s).last_temp = s.last_temp ∧
    (frame_update threshold direction cooldown t s).alert_triggered =
      s.alert_triggered := by
  have hnone := extractFromText_none_of_no_digit htext
  refine ⟨?_, rfl, hnone, ?_, ?_⟩
  · have h1 : (extractFromText "12.5C").1 =
        some ((digitsToNat ['1', '2'] : ℚ) +
          (digitsToNat ['5'] : ℚ) / (10 : ℚ) ^ 1) := rfl
    have h2 : digitsToNat ['1', '2'] = 12 := rfl
    have h3 : digitsToNat ['5'] = 5 := rfl
    rw [h1, h2, h3]
    norm_num
  · simp [frame_update, hnone]
  · simp [frame_update, hnone]

/-- C3 witness: the digit-free OCR text "ab". -/
theorem C3_witness : (extractFromText "12.5C").1 = some (12.5 : ℚ) :=
  (C3_extraction 50 "above" 60 noDigitTick initialMonitorState (by decide)).1

/-- C4: for every configuration over the supported keys, saving it and
loading it back yields it unchanged. -/
theorem C4_config_roundtrip (cfg defaultConfig : Config) (fs : FileState) :
    (load_config defaultConfig (save_config cfg fs)).1 = some cfg := by
  show Config.fromJson cfg.toJson = some cfg
  rcases cfg with ⟨cam, th, dir, cd, ⟨rx, ry, rw, rh⟩, ocr, lf, ep, ci, li⟩
  rcases ep with _ | b <;> rcases ci with _ | q1 <;> rcases li with _ | q2 <;> rfl

/-- C5, corrected.  The loop never validates a loaded region against
the frame, so the claim fails for reachable configurations in general
(`C5_counterexample`); what holds is the part the claim singles out:
the 'r' reset produces a region inside the frame it was computed from,
for every frame size. -/
theorem C5_reset_roi_within_frame (w_frame h_frame : Nat) :
    roiWithinFrame (reset_roi w_frame h_frame) w_frame h_frame := by
  unfold roiWithinFrame reset_roi
  refine ⟨?_, ?_, ?_, ?_⟩ <;> simp <;> omega

/-- C5, the claim as frozen is false: `wideRoiConfig` is reachable (it
is exactly what `load_config` returns for a config file holding it, as
the last conjunct shows), yet on a 640×480 frame its crop exceeds the
right frame edge (x + width = 1010 > 640). -/
theorem C5_counterexample :
    ReachableConfig wideRoiConfig ∧
    ¬ roiWithinFrame wideRoiConfig.roi 640 480 ∧
    (load_config TM_default_config (save_config wideRoiConfig ⟨none⟩)).1 =
      some wideRoiConfig :=
  ⟨ReachableConfig.loaded wideRoiConfig, by decide, rfl⟩

/-- C6, corrected.  The headless run releases the camera on every exit
path: its loop sits in a `try`/`finally` whose `finally` releases.  The
interactive run releases the camera on every path on which `run`
returns (quit key, frame-read failure, loop end) — but it has no
`try`/`finally`, so a keyboard interrupt propagates out of `run`
without the release (`C6_counterexample`). -/
theorem C6_camera_release (threshold : ℚ) (direction : String)
    (cooldown : ℚ) (ticks : List Tick) (s : MonitorState)
    (con : List String) (cfg : Config) (fs : FileState) :
    (run_headless threshold direction cooldown ticks s con).released = true ∧
    ((run_interactive ticks cfg s fs con).released = true ∨
      (run_interactive ticks cfg s fs con).outcome = RunOutcome.raised) :=
  ⟨run_headless_released threshold direction cooldown ticks s con,
   run_interactive_release ticks cfg s fs con⟩

/-- C6, the claim as frozen is false: a keyboard interrupt during an
interactive-loop iteration leaves `run` by the exception with the
camera handle still unreleased. -/
theorem C6_counterexample :
    (run_interactive [interruptTick] TM_default_config initialMonitorState
      ⟨none⟩ []).released = false ∧
    (run_interactive [interruptTick] TM_default_config initialMonitorState
      ⟨none⟩ []).outcome = RunOutcome.raised :=
  ⟨rfl, rfl⟩

/-- C7: a failed frame read is reported and is not a fatal exception:
the headless loop warns and continues with the next iteration, state
untouched; the interactive loop reports the error and terminates
normally, releasing the camera. -/
theorem C7_frame_read_failure (threshold : ℚ) (direction : String)
    (cooldown : ℚ) (t : Tick) (rest : List Tick) (s : MonitorState)
    (con : List String) (cfg : Config) (fs : FileState)
    (hfail : t.frame_ok = false) (hni : t.interrupt = false) :
    run_headless threshold direction cooldown (t :: rest) s con =
      run_headless threshold direction cooldown rest s
        (con ++ ["Warning: Could not read frame"]) ∧
    run_interactive (t :: rest) cfg s fs con =
      ⟨cfg, s, fs, con ++ ["Error: Could not read frame"], true,
        RunOutcome.returned⟩ := by
  constructor
  · conv_lhs => rw [run_headless]
    simp [hni, hfail]
  · conv_lhs => rw [run_interactive]
    simp [hni, hfail]

/-- C7 witness: a concrete failing-read iteration. -/
theorem C7_witness :
    run_headless 50 "above" 60 (failTick :: []) initialMonitorState [] =
      run_headless 50 "above" 60 [] initialMonitorState
        ([] ++ ["Warning: Could not read frame"]) :=
  (C7_frame_read_failure 50 "above" 60 failTick [] initialMonitorState []
    TM_default_config ⟨none⟩ rfl rfl).1

/-- C8: `log_temperature` appends exactly one line of the exact form
`"<timestamp> - Temperature: <value>°C - Status: <status>"` and never
overwrites existing content (the old file is a prefix of the new one);
through both monitor loops, every line in the log has this form with
status "normal" or "ALERT". -/
theorem C8_log_format (logFile : List String) (ts : String) (v : ℚ)
    (st : String) (threshold : ℚ) (direction : String) (cooldown : ℚ)
    (ticks : List Tick) (s : MonitorState) (con : List String)
    (cfg : Config) (fs : FileState)
    (hwf : ∀ l ∈ s.logFile, WellFormedLogLine l) :
    log_temperature logFile ts v st = logFile ++ [mkLogEntry ts v st] ∧
    logFile <+: log_temperature logFile ts v st ∧
    s.logFile <+:
      (run_headless threshold direction cooldown ticks s con).state.logFile ∧
    (∀ l ∈ (run_headless threshold direction cooldown ticks s con).state.logFile,
      WellFormedLogLine l) ∧
    s.logFile <+: (run_interactive ticks cfg s fs con).state.logFile ∧
    (∀ l ∈ (run_interactive ticks cfg s fs con).state.logFile,
      WellFormedLogLine l) := by
  rcases run_headless_log threshold direction cooldown ticks s con with
    ⟨e1, he1, hw1⟩
  rcases run_interactive_log ticks cfg s fs con with ⟨e2, he2, hw2⟩
  refine ⟨rfl, ⟨[mkLogEntry ts v st], rfl⟩, ⟨e1, he1.symm⟩, ?_,
    ⟨e2, he2.symm⟩, ?_⟩
  · intro l hl
    rw [he1] at hl
    rcases List.mem_append.mp hl with h | h
    · exact hwf l h
    · exact hw1 l h
  · intro l hl
    rw [he2] at hl
    rcases List.mem_append.mp hl with h | h
    · exact hwf l h
    · exact hw2 l h

/-- C8 witness: one normal-status line onto an empty log. -/
theorem C8_witness :
    log_temperature [] "2024-01-01 00:00:00" 50 "normal" =
      [] ++ [mkLogEntry "2024-01-01 00:00:00" 50 "normal"] :=
  (C8_log_format [] "2024-01-01 00:00:00" 50 "normal" 50 "above" 60 []
    initialMonitorState [] TM_default_config ⟨none⟩
    (by simp [initialMonitorState])).1

/-- C9: every token the extraction regex finds parses as a decimal
number (the `ValueError` branch is unreachable), and therefore
`extract_temperature` returns a value iff the OCR text contains at
least one digit. -/
theorem C9_tokens_parse (text : String) :
    (∀ tok ∈ findNumbers text, pyFloat tok ≠ none) ∧
    ((extractFromText text).1 ≠ none ↔ ∃ c ∈ text.data, c.isDigit) := by
  constructor
  · intro tok htok
    simp only [findNumbers, findNumbersAux, List.mem_map] at htok
    rcases htok with ⟨cs, hcs, rfl⟩
    rcases findNumbersFuel_parses _ _ cs hcs with ⟨q, hq⟩
    simp [pyFloat, hq]
  · constructor
    · intro hne
      by_contra hnod
      push_neg at hnod
      have hall : ∀ c ∈ text.data, c.isDigit = false := by
        intro c hc
        have := hnod c hc
        simpa using this
      exact hne (extractFromText_none_of_no_digit hall)
    · intro hd
      rcases extractFromText_some_of_digit hd with ⟨q, hq⟩
      rw [hq]
      simp

/-- C10: the interactive and headless variants implement the same
extraction and alert decision: for every vision library, OCR
configuration, image region, flag, threshold, direction and reading,
`extract_temperature` returns the same (value, raw text) pair in both
and `check_alert` the same boolean. -/
theorem C10_variants_agree (v : VisionLib) (ocr_config : String)
    (img : Image) (flag : Bool) (threshold temp : ℚ) (direction : String) :
    TM_extract_temperature v ocr_config img =
      TMH_extract_temperature v ocr_config img ∧
    TM_check_alert flag threshold direction temp =
      TMH_check_alert flag threshold direction temp :=
  ⟨rfl, rfl⟩

end TempMon

